import Mathlib

/-!
Verification of the Aliyun ASK master provisioner
(incubator/virtualcluster/pkg/controller/virtualcluster/master_provisioner_aliyun.go).

The Go functions are shallowly embedded as Lean functions.  External I/O
(the Aliyun HTTP transport, the Kubernetes client, the pod-namespace probe)
is represented by environment parameters holding the result of each call;
everything the Go code computes from those results is translated directly.
Go panics (out-of-range indexing and slicing) are modelled by `Option`:
a `none` result means the Go code would panic.  Fallible Go returns
`(value, error)` are modelled with `Except GoError`.
-/

set_option maxRecDepth 1000000

namespace AliyunMP

/-! ## JSON values and a JSON parser

The Go code relies on `encoding/json` (`json.Unmarshal`) and on
`strutil.IsJSON`.  We model JSON documents with `JValue` and give a
fuel-based recursive-descent parser for RFC-8259 JSON text: objects,
arrays, strings with escapes, numbers, `true`/`false`/`null`.  Raw control
characters inside strings are rejected, as in Go.  `parseJSON` demands the
whole input be one JSON value surrounded only by whitespace, as
`json.Unmarshal` does. -/

inductive JValue where
  | null
  | bool (b : Bool)
  | num (raw : String)
  | str (s : String)
  | arr (elems : List JValue)
  | obj (fields : List (String × JValue))
deriving Repr

/-- The character `\x7b` (opening curly brace). -/
def lbrace : Char := Char.ofNat 123

/-- The character `\x7d` (closing curly brace). -/
def rbrace : Char := Char.ofNat 125

def isWS (c : Char) : Bool :=
  c = ' ' || c = '\t' || c = '\n' || c = '\r'

def skipWS : List Char → List Char
  | [] => []
  | c :: cs => if isWS c then skipWS cs else c :: cs

/-- Decoding of a single-character JSON escape (`\"`, `\\`, `\/`, `\b`,
`\f`, `\n`, `\r`, `\t`). -/
def escChar (c : Char) : Option Char :=
  if c = '\"' then some '\"'
  else if c = '\\' then some '\\'
  else if c = '/' then some '/'
  else if c = 'b' then some (Char.ofNat 8)
  else if c = 'f' then some (Char.ofNat 12)
  else if c = 'n' then some '\n'
  else if c = 'r' then some '\r'
  else if c = 't' then some '\t'
  else none

def hexDigit (c : Char) : Option Nat :=
  if '0' ≤ c ∧ c ≤ '9' then some (c.toNat - '0'.toNat)
  else if 'a' ≤ c ∧ c ≤ 'f' then some (c.toNat - 'a'.toNat + 10)
  else if 'A' ≤ c ∧ c ≤ 'F' then some (c.toNat - 'A'.toNat + 10)
  else none

/-- Body of a JSON string after the opening quote: returns the decoded
characters and the rest of the input after the closing quote. -/
def parseStringBody : Nat → List Char → Option (List Char × List Char)
  | 0, _ => none
  | _ + 1, [] => none
  | fuel + 1, c :: cs =>
    if c = '\"' then some ([], cs)
    else if c = '\\' then
      match cs with
      | 'u' :: h1 :: h2 :: h3 :: h4 :: cs2 =>
        match hexDigit h1, hexDigit h2, hexDigit h3, hexDigit h4 with
        | some a, some b, some c3, some d =>
          match parseStringBody fuel cs2 with
          | some (tl, rest) =>
            some (Char.ofNat (((a * 16 + b) * 16 + c3) * 16 + d) :: tl, rest)
          | none => none
        | _, _, _, _ => none
      | e :: cs2 =>
        match escChar e with
        | some d =>
          match parseStringBody fuel cs2 with
          | some (tl, rest) => some (d :: tl, rest)
          | none => none
        | none => none
      | [] => none
    else if c.toNat < 32 then none
    else
      match parseStringBody fuel cs with
      | some (tl, rest) => some (c :: tl, rest)
      | none => none

def spanDigits : List Char → List Char × List Char
  | [] => ([], [])
  | c :: cs =>
    if c.isDigit then
      let (d, r) := spanDigits cs
      (c :: d, r)
    else ([], c :: cs)

/-- JSON number grammar: `-? (0 | [1-9][0-9]*) (. [0-9]+)? ([eE][+-]?[0-9]+)?`.
Returns the raw characters of the numeral and the rest of the input. -/
def parseNumber (l : List Char) : Option (List Char × List Char) :=
  let (neg, l1) : List Char × List Char :=
    match l with
    | '-' :: r => (['-'], r)
    | _ => ([], l)
  match l1 with
  | [] => none
  | c :: cs =>
    if c = '0' ∨ c.isDigit then
      let (intPart, afterInt) : List Char × List Char :=
        if c = '0' then (['0'], cs)
        else
          let (d, r) := spanDigits cs
          (c :: d, r)
      let (fracPart, afterFrac) : Option (List Char) × List Char :=
        match afterInt with
        | '.' :: r =>
          let (d, r2) := spanDigits r
          if d = [] then (none, afterInt) else (some ('.' :: d), r2)
        | _ => (some [], afterInt)
      match fracPart with
      | none => none
      | some frac =>
        let (expPart, afterExp) : Option (List Char) × List Char :=
          match afterFrac with
          | e :: r =>
            if e = 'e' ∨ e = 'E' then
              let (sgn, r1) : List Char × List Char :=
                match r with
                | '+' :: r2 => (['+'], r2)
                | '-' :: r2 => (['-'], r2)
                | _ => ([], r)
              let (d, r2) := spanDigits r1
              if d = [] then (none, afterFrac) else (some (e :: (sgn ++ d)), r2)
            else (some [], afterFrac)
          | [] => (some [], afterFrac)
        match expPart with
        | none => none
        | some ex => some (neg ++ intPart ++ frac ++ ex, afterExp)
    else none

mutual

def parseValue : Nat → List Char → Option (JValue × List Char)
  | 0, _ => none
  | fuel + 1, l =>
    match skipWS l with
    | [] => none
    | c :: cs =>
      if c = '\"' then
        match parseStringBody (cs.length + 1) cs with
        | some (chars, rest) => some (.str (String.mk chars), rest)
        | none => none
      else if c = lbrace then
        match skipWS cs with
        | [] => none
        | c2 :: cs2 =>
          if c2 = rbrace then some (.obj [], cs2)
          else
            match parseMembers fuel (c2 :: cs2) with
            | some (fields, rest) => some (.obj fields, rest)
            | none => none
      else if c = '[' then
        match skipWS cs with
        | [] => none
        | c2 :: cs2 =>
          if c2 = ']' then some (.arr [], cs2)
          else
            match parseElements fuel (c2 :: cs2) with
            | some (elems, rest) => some (.arr elems, rest)
            | none => none
      else if c = 't' then
        match cs with
        | 'r' :: 'u' :: 'e' :: rest => some (.bool true, rest)
        | _ => none
      else if c = 'f' then
        match cs with
        | 'a' :: 'l' :: 's' :: 'e' :: rest => some (.bool false, rest)
        | _ => none
      else if c = 'n' then
        match cs with
        | 'u' :: 'l' :: 'l' :: rest => some (.null, rest)
        | _ => none
      else if c = '-' ∨ c.isDigit then
        match parseNumber (c :: cs) with
        | some (raw, rest) => some (.num (String.mk raw), rest)
        | none => none
      else none

def parseMembers : Nat → List Char → Option (List (String × JValue) × List Char)
  | 0, _ => none
  | _ + 1, [] => none
  | fuel + 1, c :: cs =>
    if c = '\"' then
      match parseStringBody (cs.length + 1) cs with
      | none => none
      | some (key, afterKey) =>
        match skipWS afterKey with
        | ':' :: afterColon =>
          match parseValue fuel afterColon with
          | none => none
          | some (v, afterVal) =>
            match skipWS afterVal with
            | [] => none
            | c3 :: rest =>
              if c3 = ',' then
                match parseMembers fuel (skipWS rest) with
                | none => none
                | some (fields, rest2) =>
                  some ((String.mk key, v) :: fields, rest2)
              else if c3 = rbrace then some ([(String.mk key, v)], rest)
              else none
        | _ => none
    else none

def parseElements : Nat → List Char → Option (List JValue × List Char)
  | 0, _ => none
  | fuel + 1, l =>
    match parseValue fuel l with
    | none => none
    | some (v, afterVal) =>
      match skipWS afterVal with
      | [] => none
      | c :: rest =>
        if c = ',' then
          match parseElements fuel rest with
          | none => none
          | some (elems, rest2) => some (v :: elems, rest2)
        else if c = ']' then some ([v], rest)
        else none

end

/-- One complete JSON document, as `json.Unmarshal` accepts it: a single
value, with only whitespace around it. -/
def parseJSON (s : String) : Option JValue :=
  match parseValue (s.length + 8) s.data with
  | some (v, rest) => if skipWS rest = [] then some v else none
  | none => none

/-! ## Go string primitives

`strings.Split` and Go string slicing, modelled over `List Char`
(the relevant inputs are ASCII, so byte and character indexing agree). -/

/-- When `sep` is a leading pattern of `l`, the remainder of `l` after it. -/
def chopSep : List Char → List Char → Option (List Char)
  | [], l => some l
  | _ :: _, [] => none
  | s :: ss, c :: cs => if c = s then chopSep ss cs else none

/-- Core of `strings.Split` for a non-empty separator: split around each
non-overlapping occurrence of `sep`, left to right. -/
def splitChars (sep : List Char) : Nat → List Char → List (List Char)
  | 0, l => [l]
  | fuel + 1, l =>
    match l with
    | [] => [[]]
    | c :: cs =>
      match chopSep sep l with
      | some rest => [] :: splitChars sep fuel rest
      | none =>
        match splitChars sep fuel cs with
        | [] => [[c]]
        | h :: t => (c :: h) :: t

/-- Go `strings.Split s sep` for non-empty `sep` (the only way the source
uses it). -/
def goSplit (s sep : String) : List String :=
  (splitChars sep.data (s.data.length + 1) s.data).map String.mk

/-- Go string slicing `s[1 : len(s)-1]`, as the classifier uses to strip
surrounding quote characters.  `none` models the panic when `len(s) < 2`
(for `len(s)` 0 or 1 the slice bounds are invalid). -/
def stripOuter (s : String) : Option String :=
  match s.data with
  | [] => none
  | [_] => none
  | _ :: cs => some (String.mk cs.dropLast)

/-! ## Error data model

`AliyunSDKErrCode` is a named string type in the source; `AliyunSDKErr`
carries the parsed error response.  `GoError` is the space of `error`
values the translated functions produce: `transport` stands for opaque
errors bubbled up from the SDK client / Kubernetes client, `sdk` for an
`*AliyunSDKErr` returned as an `error`, and `plain` for `errors.New` /
`fmt.Errorf` values, carrying the formatted message. -/

abbrev AliyunSDKErrCode := String

/-- Constant `OprationNotSupported = "ErrorCheckAcl"` (sic, source spelling). -/
def OprationNotSupported : AliyunSDKErrCode := "ErrorCheckAcl"

/-- Constant `ClusterNotFound = "ErrorClusterNotFound"`. -/
def ClusterNotFound : AliyunSDKErrCode := "ErrorClusterNotFound"

/-- Constant `ClusterNameAlreadyExist = "ClusterNameAlreadyExist"`. -/
def ClusterNameAlreadyExist : AliyunSDKErrCode := "ClusterNameAlreadyExist"

structure AliyunSDKErr where
  errorName : String
  errorCode : AliyunSDKErrCode
  errorMessage : String
deriving DecidableEq, Repr

inductive GoError where
  | transport (msg : String)
  | sdk (e : AliyunSDKErr)
  | plain (msg : String)
deriving DecidableEq, Repr

/-- Function `clusterNotFoundErr`: type-asserts the error to
`*AliyunSDKErr` and accepts codes `ClusterNotFound` and
`OprationNotSupported`. -/
def clusterNotFoundErr (err : GoError) : Bool :=
  match err with
  | .sdk ase => ase.errorCode = ClusterNotFound || ase.errorCode = OprationNotSupported
  | _ => false

/-- Modelled from the spec: `strutil.IsJSON` lives in
pkg/controller/util/strings, which is not part of the sources here; §4.3
of the spec states "A response is successful iff its body parses as
well-formed JSON". -/
def IsJSON (s : String) : Bool := (parseJSON s).isSome

/-- Function `isErrResponse`.  Result `some none` is Go's `nil` (the body
is JSON, hence a success); `some (some e)` is a parsed `*AliyunSDKErr`;
`none` models a panic of the position-dependent parse (index or slice out
of range). -/
def isErrResponse (responseBody : String) : Option (Option AliyunSDKErr) :=
  if IsJSON responseBody then some none
  else
    let errEntries := goSplit responseBody "\n"
    -- strings.Split never returns an empty list, so errEntries[0] is safe
    match (goSplit (errEntries.headD "") ": ").get? 1 with
    | none => none
    | some errorName =>
      match errEntries.get? 4 with
      | none => none
      | some line4 =>
        match (goSplit line4 ":").get? 2 with
        | none => none
        | some errorCodeTok =>
          match stripOuter errorCodeTok with
          | none => none
          | some errorCode =>
            match (goSplit line4 ":").get? 4 with
            | none => none
            | some errorMessageTok =>
              match stripOuter errorMessageTok with
              | none => none
              | some errorMessage =>
                some (some ⟨errorName, errorCode, errorMessage⟩)

/-! ## json.Unmarshal at the three Go target types

Go maps resolve duplicate JSON keys by letting the last occurrence win,
so map reads go through `jlookup`/`mapGet`, which keep the last binding. -/

/-- Read of a Go `map[string]interface{}` built by `json.Unmarshal`:
the last binding for a key wins. -/
def jlookup (fields : List (String × JValue)) (k : String) : Option JValue :=
  fields.foldl (fun acc f => if f.1 = k then some f.2 else acc) none

/-- Read of a Go `map[string]string`: the last binding for a key wins. -/
def mapGet (m : List (String × String)) (k : String) : Option String :=
  m.foldl (fun acc f => if f.1 = k then some f.2 else acc) none

/-- `json.Unmarshal` into `map[string]interface{}`: the document must be a
single JSON object, or `null` (a no-op leaving the map empty). -/
def unmarshalObj (body : String) : Except GoError (List (String × JValue)) :=
  match parseJSON body with
  | some (JValue.obj fields) => .ok fields
  | some JValue.null => .ok []
  | some _ => .error (.plain "json: cannot unmarshal into map[string]interface\x7b\x7d")
  | none => .error (.plain "json: invalid input")

/-- All elements of a JSON array read back as objects
(for `json.Unmarshal` into `[]map[string]interface{}`).  A JSON `null`
element is a no-op for `json.Unmarshal`, leaving the element as the nil
map, so it reads as the empty map. -/
def collectObjs : List JValue → Option (List (List (String × JValue)))
  | [] => some []
  | JValue.obj fields :: rest =>
    match collectObjs rest with
    | some tl => some (fields :: tl)
    | none => none
  | JValue.null :: rest =>
    match collectObjs rest with
    | some tl => some ([] :: tl)
    | none => none
  | _ :: _ => none

/-- All members of a JSON object read back as strings
(for `json.Unmarshal` into `map[string]string`). -/
def collectStrFields : List (String × JValue) → Option (List (String × String))
  | [] => some []
  | (k, JValue.str v) :: rest =>
    match collectStrFields rest with
    | some tl => some ((k, v) :: tl)
    | none => none
  | _ :: _ => none

/-- `json.Unmarshal` into `[]map[string]interface{}`: a JSON array whose
elements are all objects. -/
def unmarshalObjList (body : String) : Except GoError (List (List (String × JValue))) :=
  match parseJSON body with
  | some (JValue.arr elems) =>
    match collectObjs elems with
    | some objs => .ok objs
    | none => .error (.plain "json: cannot unmarshal element into map[string]interface\x7b\x7d")
  | some JValue.null => .ok []
  | some _ => .error (.plain "json: cannot unmarshal into []map[string]interface\x7b\x7d")
  | none => .error (.plain "json: invalid input")

/-- `json.Unmarshal` into `map[string]string`: a JSON object all of whose
member values are strings. -/
def unmarshalStrMap (body : String) : Except GoError (List (String × String)) :=
  match parseJSON body with
  | some (JValue.obj fields) =>
    match collectStrFields fields with
    | some m => .ok m
    | none => .error (.plain "json: cannot unmarshal value into string")
  | some JValue.null => .ok []
  | some _ => .error (.plain "json: cannot unmarshal into map[string]string")
  | none => .error (.plain "json: invalid input")

/-! ## Backend request functions

Each Go function issues one HTTP request through the SDK client and then
computes on the result; the transport outcome (an error, or the response
body string) is a parameter.  Query parameters such as `RegionId` only
shape the request, so they do not appear where the Go code never reads
them back. -/

/-- The `for _, clsInfo := range clsInfoLst` loop of `getClusterIDByName`. -/
def scanClusters : List (List (String × JValue)) → String → Except GoError String
  | [], clusterName =>
    .error (.plain ("can\x27t find cluster information for cluster(" ++ clusterName ++ ")"))
  | clsInfo :: rest, clusterName =>
    match jlookup clsInfo "name" with
    | none => .error (.plain "clusterInfo doesn\x27t contain \x27name\x27 field")
    | some clsNameInf =>
      match clsNameInf with
      | JValue.str clsName =>
        if clsName = clusterName then
          match jlookup clsInfo "cluster_id" with
          | none => .error (.plain "clusterInfo doesn\x27t contain \x27cluster_id\x27 field")
          | some clsIDInf =>
            match clsIDInf with
            | JValue.str clsID => .ok clsID
            | _ => .error (.plain "fail to assert \x27cluster_id\x27 to string")
        else scanClusters rest clusterName
      | _ => .error (.plain "fail to assert \x27name\x27 to string")

/-- Function `getClusterIDByName`: list clusters (`GET /clusters`), scan
for the entry whose `name` equals `clusterName`, return its `cluster_id`. -/
def getClusterIDByName (listResp : Except GoError String) (clusterName : String) :
    Except GoError String :=
  match listResp with
  | .error e => .error e
  | .ok body =>
    match unmarshalObjList body with
    | .error e => .error e
    | .ok clsInfoLst => scanClusters clsInfoLst clusterName

/-- Struct `ASKConfig`. -/
structure ASKConfig where
  vpcID : String
  regionID : String
  zoneID : String
deriving DecidableEq, Repr, Inhabited

/-- The creation request body of `sendCreationRequest`, byte for byte:
the raw template with `clusterName`, `regionID`, `zoneID` and, when
`vpcID` is non-empty, `fmt.Sprintf("\"\nvpc_id\": %s\n", vpcID)`
substituted in. -/
def buildCreationBody (clusterName : String) (askCfg : ASKConfig) : String :=
  let vpcIDEntry : String :=
    if askCfg.vpcID ≠ "" then "\"\nvpc_id\": " ++ askCfg.vpcID ++ "\n" else ""
  "\x7b\n\"cluster_type\": \"Ask\",\n\"name\": \"" ++ clusterName ++
    "\", \n\"region_id\": \"" ++ askCfg.regionID ++
    "\",\n\"zoneid\": \"" ++ askCfg.zoneID ++ "\", " ++ vpcIDEntry ++
    "\n\"nat_gateway\": true,\n\"private_zone\": true\n\x7d"

/-- The side-effecting interactions the provisioner performs, in program
order: backend HTTP requests and Kubernetes object creations. -/
inductive Effect where
  | backendCreateCluster
  | backendListClusters
  | backendGetState
  | backendGetKubeConfig
  | backendDeleteCluster
  | kubeCreateNamespace (ns : String)
  | kubeCreateSecret (ns : String)
deriving DecidableEq, Repr

/-- Function `sendCreationRequest`: POST the creation body; on a
classified `ClusterNameAlreadyExist` resolve the id by name; on any other
classified error return it; on a JSON success body read `cluster_id`.
The second component records the backend requests issued.  `none` models
the classifier panicking. -/
def sendCreationRequest (createResp listResp : Except GoError String)
    (clusterName : String) (askCfg : ASKConfig) :
    Option (Except GoError String × List Effect) :=
  let _body := buildCreationBody clusterName askCfg
  match createResp with
  | .error e => some (.error e, [.backendCreateCluster])
  | .ok respBody =>
    match isErrResponse respBody with
    | none => none
    | some (some sdkErr) =>
      if sdkErr.errorCode = ClusterNameAlreadyExist then
        some (getClusterIDByName listResp clusterName,
          [.backendCreateCluster, .backendListClusters])
      else some (.error (.sdk sdkErr), [.backendCreateCluster])
    | some none =>
      match unmarshalStrMap respBody with
      | .error e => some (.error e, [.backendCreateCluster])
      | .ok clsInfo =>
        match mapGet clsInfo "cluster_id" with
        | none =>
          some (.error (.plain "can\x27t find \x27cluster_id\x27 in response body"),
            [.backendCreateCluster])
        | some clusterID => some (.ok clusterID, [.backendCreateCluster])

/-- The field reads of `getASKState` after unmarshalling: require a string
`cluster_id` equal to the requested one, then a string `state`. -/
def askStateFromInfo (clsInfo : List (String × JValue)) (clusterID : String) :
    Except GoError String :=
  match jlookup clsInfo "cluster_id" with
  | none => .error (.plain "cluster info entry doesn\x27t contain \x27cluster_id\x27 field")
  | some clsIDInf =>
    match clsIDInf with
    | JValue.str clsID =>
      if clsID ≠ clusterID then
        .error (.plain ("cluster id does not match: got " ++ clsID ++ " want " ++ clusterID))
      else
        match jlookup clsInfo "state" with
        | none => .error (.plain ("fail to get \x27state\x27 of cluster(" ++ clusterID ++ ")"))
        | some clsStateInf =>
          match clsStateInf with
          | JValue.str clsState => .ok clsState
          | _ => .error (.plain "fail to assert cluster.state to string")
    | _ => .error (.plain "fail to assert cluster id")

/-- Function `getASKState` (`GET /clusters/{id}`).  NOTE the source's
error-response branch is `if errRep != nil { return "", err }` where `err`
is necessarily `nil` at that point, so a classified error response comes
back as state `""` with no error; the translation reproduces that.
`none` models the classifier panicking. -/
def getASKState (resp : Except GoError String) (clusterID : String) :
    Option (Except GoError String) :=
  match resp with
  | .error e => some (.error e)
  | .ok body =>
    match isErrResponse body with
    | none => none
    | some (some _errRep) => some (.ok "")
    | some none =>
      match unmarshalObj body with
      | .error e => some (.error e)
      | .ok clsInfo => some (askStateFromInfo clsInfo clusterID)

/-- Function `getASKKubeConfig` (`GET /k8s/{id}/user_config`): unmarshal a
string map and read its `config` member. -/
def getASKKubeConfig (resp : Except GoError String) (clusterID : String) :
    Except GoError String :=
  match resp with
  | .error e => .error e
  | .ok body =>
    match unmarshalStrMap body with
    | .error e => .error e
    | .ok kbCfgJson =>
      match mapGet kbCfgJson "config" with
      | none => .error (.plain ("kubeconfig of cluster(" ++ clusterID ++ ") is not found"))
      | some kbCfg => .ok kbCfg

/-- Function `sendDeletionRequest` (`DELETE /clusters/{id}`): only the
transport error is propagated; `_, err := cli.ProcessCommonRequest(...)`
discards the response, so the body is never inspected. -/
def sendDeletionRequest (deleteResp : Except GoError String) : Option GoError :=
  match deleteResp with
  | .error e => some e
  | .ok _ => none

/-! ## Credential and config loaders

`kubeutil.GetPodNsFromInside` is external to the provisioner file; its
outcome is the `podNs` parameter (its returned value is unused by the
source when it errors, so `Except` loses nothing).  The Kubernetes reads
(`mpa.Get`) are parameters from namespace and object name to the object's
`Data` map.  Go's named-return style means a failed `Get` only records
the error and continues on the zero-valued object; the translations
reproduce the resulting error overwrites. -/

def DefaultVcManagerNs : String := "vc-manager"

def AliyunAkSrt : String := "aliyun-accesskey"

def AliyunAKIDName : String := "accessKeyID"

def AliyunAKSecretName : String := "accessKeySecret"

def AliyunASKConfigMap : String := "aliyun-ask-config"

def AliyunASKCfgMpRegionID : String := "askRegionID"

def AliyunASKCfgMpZoneID : String := "askZoneID"

def AliyunASKCfgMpVPCID : String := "askVpcID"

/-- The `vcManagerNs` computation shared by `getAliyunAKPair` and
`getASKConfigs`: the pod namespace, or `DefaultVcManagerNs` when the
lookup failed. -/
def resolveVcManagerNs (podNs : Except GoError String) : String :=
  match podNs with
  | .ok ns => ns
  | .error _ => DefaultVcManagerNs

/-- Result of `getAliyunAKPair`, with the namespace its `Get` call
targeted made explicit. -/
structure AKPairResult where
  ns : String
  keyID : String
  keySecret : String
  err : Option GoError
deriving Repr

/-- The zero value a failed `mpa.Get` leaves behind: Go continues with
the empty `Data` map. -/
def dataOf (getRes : Except GoError (List (String × String))) : List (String × String) :=
  match getRes with
  | .ok d => d
  | .error _ => []

/-- The `err` recorded (but not returned early) after `mpa.Get`. -/
def errOf (getRes : Except GoError (List (String × String))) : Option GoError :=
  match getRes with
  | .ok _ => none
  | .error e => some e

/-- Body of `getAliyunAKPair` after its single `Get` call on
(`ns`, `aliyun-accesskey`): a `Get` error or a missing field each
overwrite `err`, and the values read so far are still returned. -/
def getAliyunAKPairFrom (ns : String) (getRes : Except GoError (List (String × String))) :
    AKPairResult :=
  match mapGet (dataOf getRes) AliyunAKIDName,
      mapGet (dataOf getRes) AliyunAKSecretName with
  | some keyID, some keySecret => ⟨ns, keyID, keySecret, errOf getRes⟩
  | some keyID, none =>
    ⟨ns, keyID, "", some (.plain "aliyun accessKeySecret doesn\x27t exist")⟩
  | none, some keySecret =>
    ⟨ns, "", keySecret, some (.plain "aliyun accessKeyID doesn\x27t exist")⟩
  | none, none => ⟨ns, "", "", some (.plain "aliyun accessKeySecret doesn\x27t exist")⟩

/-- Method `getAliyunAKPair`: read secret `aliyun-accesskey` in the
resolved namespace. -/
def getAliyunAKPair (podNs : Except GoError String)
    (getSecret : String → String → Except GoError (List (String × String))) :
    AKPairResult :=
  getAliyunAKPairFrom (resolveVcManagerNs podNs)
    (getSecret (resolveVcManagerNs podNs) AliyunAkSrt)

/-- Result of `getASKConfigs`, with the namespace its `Get` call targeted
made explicit. -/
structure ASKConfigsResult where
  ns : String
  cfg : ASKConfig
  err : Option GoError
deriving Repr

/-- Body of `getASKConfigs` after its single `Get` call on
(`ns`, `aliyun-ask-config`): `askRegionID` and `askZoneID` are required
(early return with a descriptive error, masking any `Get` error),
`askVpcID` is optional. -/
def getASKConfigsFrom (ns : String) (getRes : Except GoError (List (String × String))) :
    ASKConfigsResult :=
  match mapGet (dataOf getRes) AliyunASKCfgMpRegionID with
  | none => ⟨ns, ⟨"", "", ""⟩, some (.plain (AliyunASKCfgMpRegionID ++ " not exist"))⟩
  | some regionID =>
    match mapGet (dataOf getRes) AliyunASKCfgMpZoneID with
    | none =>
      ⟨ns, ⟨"", regionID, ""⟩, some (.plain (AliyunASKCfgMpZoneID ++ " not exist"))⟩
    | some zoneID =>
      match mapGet (dataOf getRes) AliyunASKCfgMpVPCID with
      | some vpcID => ⟨ns, ⟨vpcID, regionID, zoneID⟩, errOf getRes⟩
      | none => ⟨ns, ⟨"", regionID, zoneID⟩, errOf getRes⟩

/-- Method `getASKConfigs`: read ConfigMap `aliyun-ask-config` in the
resolved namespace. -/
def getASKConfigs (podNs : Except GoError String)
    (getConfigMap : String → String → Except GoError (List (String × String))) :
    ASKConfigsResult :=
  getASKConfigsFrom (resolveVcManagerNs podNs)
    (getConfigMap (resolveVcManagerNs podNs) AliyunASKConfigMap)

/-! ## The provisioner environment and the polling loops -/

/-- Outcome of `mpa.Create` on a Kubernetes object; the source tolerates
`apierrors.IsAlreadyExists` as a no-op. -/
inductive KubeCreateResult where
  | ok
  | alreadyExists
  | failed (e : GoError)
deriving Repr

/-- The results of every external interaction one `CreateVirtualCluster`
or `DeleteVirtualCluster` call can perform.  `stateResp k` is the
transport outcome of the k-th state poll (`GET /clusters/{id}`). -/
structure ProvisionerEnv where
  podNs : Except GoError String
  getSecret : String → String → Except GoError (List (String × String))
  getConfigMap : String → String → Except GoError (List (String × String))
  newClient : Option GoError
  createResp : Except GoError String
  listResp : Except GoError String
  stateResp : Nat → Except GoError String
  kubeCfgResp : Except GoError String
  nsCreate : KubeCreateResult
  secretCreate : KubeCreateResult
  deleteResp : Except GoError String

/-- Outcome of a poll loop.  `observed k t`: the k-th probe (so after k
polls, at `t` seconds) satisfied the loop's success condition and the
loop was broken; `aborted k t e`: the k-th probe produced a fatal error;
`timedOut k t`: the deadline timer fired after k polls at `t` seconds. -/
inductive PollOutcome where
  | observed (polls : Nat) (elapsedSec : Nat)
  | aborted (polls : Nat) (elapsedSec : Nat) (e : GoError)
  | timedOut (polls : Nat) (elapsedSec : Nat)
deriving DecidableEq, Repr

/-- The creation poll loop of `CreateVirtualCluster`: a `select` race
between a fresh 10-second interval timer and the one-shot 120-second
`creationTimeout` started before the loop.  `fuel` counts the interval
firings still ahead of the deadline; probes are instantaneous in the
model, so poll k happens at second `10 * (k+1)`.  When the interval and
the deadline fire together at second 120 the race is resolved in the
interval's favour; with the opposite resolution the timeout would be
returned at the same 120-second mark with one poll fewer.  A probe error
is returned as-is (fatal); state `"running"` breaks the loop. -/
def createPollLoop (probe : Nat → Option (Except GoError String)) :
    Nat → Nat → Nat → Option PollOutcome
  | 0, k, elapsed => some (.timedOut k elapsed)
  | fuel + 1, k, elapsed =>
    match probe k with
    | none => none
    | some (.error e) => some (.aborted (k + 1) (elapsed + 10) e)
    | some (.ok clsState) =>
      if clsState = "running" then some (.observed (k + 1) (elapsed + 10))
      else createPollLoop probe fuel (k + 1) (elapsed + 10)

/-- The creation poll loop from its start: 120-second deadline / 10-second
interval = 12 interval firings. -/
def createPolling (probe : Nat → Option (Except GoError String)) : Option PollOutcome :=
  createPollLoop probe 12 0 0

/-- The deletion poll loop of `DeleteVirtualCluster`: 2-second interval
against the one-shot 100-second `deletionTimeout`.  A probe error is
tolerated (loop broken, success) when `clusterNotFoundErr` accepts it and
fatal otherwise; state `"deleting"` breaks the loop. -/
def deletePollLoop (probe : Nat → Option (Except GoError String)) :
    Nat → Nat → Nat → Option PollOutcome
  | 0, k, elapsed => some (.timedOut k elapsed)
  | fuel + 1, k, elapsed =>
    match probe k with
    | none => none
    | some (.error e) =>
      if clusterNotFoundErr e then some (.observed (k + 1) (elapsed + 2))
      else some (.aborted (k + 1) (elapsed + 2) e)
    | some (.ok state) =>
      if state = "deleting" then some (.observed (k + 1) (elapsed + 2))
      else deletePollLoop probe fuel (k + 1) (elapsed + 2)

/-- The deletion poll loop from its start: 100-second deadline / 2-second
interval = 50 interval firings. -/
def deletePolling (probe : Nat → Option (Except GoError String)) : Option PollOutcome :=
  deletePollLoop probe 50 0 0

/-- A finished call: the returned `error` and the ordered trace of
side-effecting interactions it performed. -/
structure RunResult where
  result : Except GoError Unit
  trace : List Effect
deriving Repr

/-- Method `CreateVirtualCluster`: load credentials and config, create
the SDK client, send the creation request, poll to `running` (timeout
120 s), create the anchor namespace (`clusterKey` stands for
`conversion.ToClusterKey(vc)`), fetch the kubeconfig and store it as the
admin secret.  `none` models a classifier panic. -/
def CreateVirtualCluster (env : ProvisionerEnv) (vcName clusterKey : String) :
    Option RunResult :=
  match (getAliyunAKPair env.podNs env.getSecret).err with
  | some e => some ⟨.error e, []⟩
  | none =>
    match (getASKConfigs env.podNs env.getConfigMap).err with
    | some e => some ⟨.error e, []⟩
    | none =>
      match env.newClient with
      | some e => some ⟨.error e, []⟩
      | none =>
        match sendCreationRequest env.createResp env.listResp vcName
            (getASKConfigs env.podNs env.getConfigMap).cfg with
        | none => none
        | some (.error e, tr) => some ⟨.error e, tr⟩
        | some (.ok clsID, tr) =>
          match createPolling (fun k => getASKState (env.stateResp k) clsID) with
          | none => none
          | some (.aborted polls _ e) =>
            some ⟨.error e, tr ++ List.replicate polls .backendGetState⟩
          | some (.timedOut polls _) =>
            some ⟨.error (.plain ("creating cluster(" ++ clsID ++ ") timeout")),
              tr ++ List.replicate polls .backendGetState⟩
          | some (.observed polls _) =>
            match env.nsCreate with
            | .failed e =>
              some ⟨.error e, tr ++ List.replicate polls .backendGetState ++
                [.kubeCreateNamespace clusterKey]⟩
            | _ =>
              match getASKKubeConfig env.kubeCfgResp clsID with
              | .error e =>
                some ⟨.error e, tr ++ List.replicate polls .backendGetState ++
                  [.kubeCreateNamespace clusterKey, .backendGetKubeConfig]⟩
              | .ok _kbCfg =>
                match env.secretCreate with
                | .failed e =>
                  some ⟨.error e, tr ++ List.replicate polls .backendGetState ++
                    [.kubeCreateNamespace clusterKey, .backendGetKubeConfig,
                      .kubeCreateSecret clusterKey]⟩
                | _ =>
                  some ⟨.ok (), tr ++ List.replicate polls .backendGetState ++
                    [.kubeCreateNamespace clusterKey, .backendGetKubeConfig,
                      .kubeCreateSecret clusterKey]⟩

/-- Method `DeleteVirtualCluster`: load credentials and config, create
the SDK client, resolve the cluster id by name, send the delete request,
poll to `deleting`-or-gone (timeout 100 s).  `none` models a classifier
panic. -/
def DeleteVirtualCluster (env : ProvisionerEnv) (vcName : String) : Option RunResult :=
  match (getAliyunAKPair env.podNs env.getSecret).err with
  | some e => some ⟨.error e, []⟩
  | none =>
    match (getASKConfigs env.podNs env.getConfigMap).err with
    | some e => some ⟨.error e, []⟩
    | none =>
      match env.newClient with
      | some e => some ⟨.error e, []⟩
      | none =>
        match getClusterIDByName env.listResp vcName with
        | .error e => some ⟨.error e, [.backendListClusters]⟩
        | .ok clusterID =>
          match sendDeletionRequest env.deleteResp with
          | some e => some ⟨.error e, [.backendListClusters, .backendDeleteCluster]⟩
          | none =>
            match deletePolling (fun k => getASKState (env.stateResp k) clusterID) with
            | none => none
            | some (.observed polls _) =>
              some ⟨.ok (), [.backendListClusters, .backendDeleteCluster] ++
                List.replicate polls .backendGetState⟩
            | some (.aborted polls _ e) =>
              some ⟨.error e, [.backendListClusters, .backendDeleteCluster] ++
                List.replicate polls .backendGetState⟩
            | some (.timedOut polls _) =>
              some ⟨.error (.plain ("Delete ASK(" ++ vcName ++ ") timeout")),
                [.backendListClusters, .backendDeleteCluster] ++
                  List.replicate polls .backendGetState⟩

/-- Method `GetMasterProvisioner`. -/
def GetMasterProvisioner : String := "aliyun"

/-! ## Concrete response bodies and environments used as inputs -/

/-- The literal five-line error body of the spec (§8, "Error text
parsing"). -/
def sampleErrBody : String :=
  "ERROR: SDK.ServerError\nErrorCode:\nRecommend:\nRequestId:\nMessage: \x7b\"code\":\"ClusterNameAlreadyExist\",\"message\":\"cluster name X already exist\",\"requestId\":\"R1\",\"status\":400\x7d"

/-- A non-JSON body whose fifth line makes the positional parse produce
exactly the code `ClusterNameAlreadyExist`. -/
def conflictBody : String :=
  "A: B\nx\nx\nx\na:b:\"ClusterNameAlreadyExist\":c:\"mm\""

/-- A non-JSON body whose fifth line makes the positional parse produce
exactly the code `ErrorClusterNotFound`. -/
def notFoundBody : String :=
  "A: B\nx\nx\nx\na:b:\"ErrorClusterNotFound\":c:\"mm\""

/-- A non-JSON body whose fifth line makes the positional parse produce a
code that is none of the recognized ones. -/
def otherErrBody : String :=
  "A: B\nx\nx\nx\na:b:\"SomeWeirdError\":c:\"mm\""

def createdRespBody : String := "\x7b\"cluster_id\":\"cls-123\"\x7d"

def listBody : String := "[\x7b\"name\":\"tenant-a\",\"cluster_id\":\"cls-123\"\x7d]"

def creatingBody : String := "\x7b\"cluster_id\":\"cls-123\",\"state\":\"creating\"\x7d"

def runningBody : String := "\x7b\"cluster_id\":\"cls-123\",\"state\":\"running\"\x7d"

def deletingBody : String := "\x7b\"cluster_id\":\"cls-123\",\"state\":\"deleting\"\x7d"

def kubeCfgBody : String := "\x7b\"config\":\"admin-kubeconfig\"\x7d"

/-- An environment in which every external interaction succeeds: the
second state poll reads `running`. -/
def happyEnv : ProvisionerEnv where
  podNs := .ok "ns-operator"
  getSecret := fun _ _ => .ok [(AliyunAKIDName, "ak-id"), (AliyunAKSecretName, "ak-secret")]
  getConfigMap := fun _ _ =>
    .ok [(AliyunASKCfgMpRegionID, "cn-hangzhou"), (AliyunASKCfgMpZoneID, "zone-a")]
  newClient := none
  createResp := .ok createdRespBody
  listResp := .ok listBody
  stateResp := fun k => if k = 0 then .ok creatingBody else .ok runningBody
  kubeCfgResp := .ok kubeCfgBody
  nsCreate := .ok
  secretCreate := .ok
  deleteResp := .ok "\x7b\x7d"

/-! ## Helper lemmas -/

/-- A creation poll loop that times out does so after exactly its full
budget of interval firings, with the accumulated 10-second waits. -/
theorem createPollLoop_timedOut_eq (probe : Nat → Option (Except GoError String)) :
    ∀ fuel k elapsed polls t,
      createPollLoop probe fuel k elapsed = some (.timedOut polls t) →
      polls = k + fuel ∧ t = elapsed + 10 * fuel := by
  intro fuel
  induction fuel with
  | zero =>
    intro k e polls t h
    unfold createPollLoop at h
    cases h
    omega
  | succ n ih =>
    intro k e polls t h
    unfold createPollLoop at h
    cases hp : probe k with
    | none => rw [hp] at h; cases h
    | some r =>
      rw [hp] at h
      cases r with
      | error err => cases h
      | ok s =>
        dsimp only at h
        by_cases hs : s = "running"
        · rw [if_pos hs] at h; cases h
        · rw [if_neg hs] at h
          have := ih (k + 1) (e + 10) polls t h
          omega

/-- A creation poll loop breaks with `observed` exactly when some probe in
its window returned state `"running"`. -/
theorem createPollLoop_observed_running (probe : Nat → Option (Except GoError String)) :
    ∀ fuel k elapsed polls t,
      createPollLoop probe fuel k elapsed = some (.observed polls t) →
      ∃ j, k ≤ j ∧ j < k + fuel ∧ probe j = some (.ok "running") := by
  intro fuel
  induction fuel with
  | zero =>
    intro k e polls t h
    unfold createPollLoop at h
    cases h
  | succ n ih =>
    intro k e polls t h
    unfold createPollLoop at h
    cases hp : probe k with
    | none => rw [hp] at h; cases h
    | some r =>
      rw [hp] at h
      cases r with
      | error err => cases h
      | ok s =>
        dsimp only at h
        by_cases hs : s = "running"
        · exact ⟨k, le_refl k, by omega, by rw [hp, hs]⟩
        · rw [if_neg hs] at h
          obtain ⟨j, hkj, hjn, hj⟩ := ih (k + 1) (e + 10) polls t h
          exact ⟨j, by omega, by omega, hj⟩

/-- When every probe in the window answers a non-`"running"` state, the
creation poll loop runs its whole budget and times out. -/
theorem createPollLoop_nonrunning (probe : Nat → Option (Except GoError String)) :
    ∀ fuel k elapsed,
      (∀ j, k ≤ j → j < k + fuel → ∃ s, probe j = some (.ok s) ∧ s ≠ "running") →
      createPollLoop probe fuel k elapsed = some (.timedOut (k + fuel) (elapsed + 10 * fuel)) := by
  intro fuel
  induction fuel with
  | zero =>
    intro k e _
    unfold createPollLoop
    norm_num
  | succ n ih =>
    intro k e hprobe
    obtain ⟨s, hs, hns⟩ := hprobe k (le_refl k) (by omega)
    unfold createPollLoop
    rw [hs]
    dsimp only
    rw [if_neg hns]
    have := ih (k + 1) (e + 10) (fun j h1 h2 => hprobe j (by omega) (by omega))
    rw [this]
    congr 2 <;> omega

/-- The trace of backend requests `sendCreationRequest` issues: the POST,
plus the listing exactly on the name-conflict path. -/
theorem sendCreationRequest_trace (a b : Except GoError String) (c : String) (d : ASKConfig)
    (r : Except GoError String) (tr : List Effect) :
    sendCreationRequest a b c d = some (r, tr) →
    tr = [Effect.backendCreateCluster] ∨
      tr = [Effect.backendCreateCluster, Effect.backendListClusters] := by
  intro h
  unfold sendCreationRequest at h
  split at h
  · cases h; left; rfl
  · split at h
    · cases h
    · split at h
      · cases h; right; rfl
      · cases h; left; rfl
    · split at h
      · cases h; left; rfl
      · split at h
        · cases h; left; rfl
        · cases h; left; rfl

/-- The admin-secret effect never occurs in a `sendCreationRequest` trace. -/
theorem sendCreationRequest_trace_no_secret (a b : Except GoError String) (c : String)
    (d : ASKConfig) (r : Except GoError String) (tr : List Effect) (ns : String) :
    sendCreationRequest a b c d = some (r, tr) →
    Effect.kubeCreateSecret ns ∉ tr ∧ Effect.backendDeleteCluster ∉ tr := by
  intro h
  rcases sendCreationRequest_trace a b c d r tr h with h2 | h2 <;> subst h2 <;>
    exact ⟨by simp, by simp⟩

/-! ## The claims -/

/-- C1: on the spec's literal five-line error body, `isErrResponse` does
return a non-nil error with `errorName = "SDK.ServerError"`, but its
`errorCode` is the whole third `":"`-token of line 5 with its outermost
characters stripped — the string `ClusterNameAlreadyExist","message` —
and not exactly `ClusterNameAlreadyExist`: splitting
`Message: {"code":"ClusterNameAlreadyExist","message":...}` on `":"`
leaves the next JSON key glued onto the token. -/
theorem claim_C1_error_text_parsing :
    isErrResponse sampleErrBody =
      some (some ⟨"SDK.ServerError", "ClusterNameAlreadyExist\",\"message", "R1\",\"status"⟩) ∧
    ("ClusterNameAlreadyExist\",\"message" : AliyunSDKErrCode) ≠ ClusterNameAlreadyExist :=
  ⟨rfl, by decide⟩

/-- C9: the creation request body.  With `vpcID = ""` the body is the
well-formed JSON object of the external-interface spec (six members, no
`vpc_id`).  With a non-empty `vpcID` the body is not well-formed JSON at
all — `fmt.Sprintf("\"\nvpc_id\": %s\n", v)` puts a raw newline inside a
quoted string and the vpc value unquoted — so no `"vpc_id":"<v>"` member
exists. -/
theorem claim_C9_creation_body :
    parseJSON (buildCreationBody "tenant-a" ⟨"vpc-1", "cn-hangzhou", "zone-a"⟩) = none ∧
    parseJSON (buildCreationBody "tenant-a" ⟨"", "cn-hangzhou", "zone-a"⟩) =
      some (JValue.obj [("cluster_type", .str "Ask"), ("name", .str "tenant-a"),
        ("region_id", .str "cn-hangzhou"), ("zoneid", .str "zone-a"),
        ("nat_gateway", .bool true), ("private_zone", .bool true)]) :=
  ⟨rfl, rfl⟩

/-- C2: a deletion poll whose response body classifies to exactly
`ErrorClusterNotFound` (a code `clusterNotFoundErr` accepts) is *not*
treated as "already gone": `getASKState`'s error-response branch returns
`("", nil)` — the classified error is discarded — so the state never
reads `"deleting"`, the loop never breaks, and `DeleteVirtualCluster`
returns the 100-second timeout error instead of no error. -/
theorem claim_C2_delete_notfound_swallowed :
    isErrResponse notFoundBody = some (some ⟨"B", ClusterNotFound, "mm"⟩) ∧
    clusterNotFoundErr (.sdk ⟨"B", ClusterNotFound, "mm"⟩) = true ∧
    getASKState (.ok notFoundBody) "cls-123" = some (.ok "") ∧
    DeleteVirtualCluster { happyEnv with stateResp := fun _ => .ok notFoundBody } "tenant-a" =
      some ⟨.error (.plain "Delete ASK(tenant-a) timeout"),
        [Effect.backendListClusters, Effect.backendDeleteCluster] ++
          List.replicate 50 Effect.backendGetState⟩ :=
  ⟨rfl, rfl, rfl, rfl⟩

/-- C6: a creation poll whose response body carries a classified backend
error is *not* fatal and *not* returned: `getASKState` turns it into
`("", nil)`, the loop keeps polling, and `CreateVirtualCluster` returns
the generic 120-second timeout error after twelve further polls instead
of returning the classified error at the first poll.  (Transport and
shape errors *are* returned immediately — see the `aborted` branch of
`createPollLoop`.) -/
theorem claim_C6_create_poll_error_swallowed :
    isErrResponse otherErrBody = some (some ⟨"B", "SomeWeirdError", "mm"⟩) ∧
    getASKState (.ok otherErrBody) "cls-123" = some (.ok "") ∧
    CreateVirtualCluster { happyEnv with stateResp := fun _ => .ok otherErrBody }
        "tenant-a" "vc-tenant-a" =
      some ⟨.error (.plain "creating cluster(cls-123) timeout"),
        [Effect.backendCreateCluster] ++ List.replicate 12 Effect.backendGetState⟩ :=
  ⟨rfl, rfl, rfl⟩

/-- C7, counterexample: a delete request whose response body is a
classified backend error does *not* make `DeleteVirtualCluster` return an
error, and polling *does* start: `sendDeletionRequest` discards the
response body, so the call proceeds to the poll loop (one
`backendGetState` here) and returns `nil`. -/
theorem claim_C7_counterexample :
    isErrResponse otherErrBody = some (some ⟨"B", "SomeWeirdError", "mm"⟩) ∧
    DeleteVirtualCluster
        { happyEnv with
          deleteResp := .ok otherErrBody
          stateResp := fun _ => .ok deletingBody } "tenant-a" =
      some ⟨.ok (), [Effect.backendListClusters, Effect.backendDeleteCluster,
        Effect.backendGetState]⟩ :=
  ⟨rfl, rfl⟩

/-- C7, amended: `DeleteVirtualCluster` returns an error immediately —
polling never starts (the trace ends at the delete request, no
`backendGetState`) — when the delete request fails with a *transport*
error; the response body of the delete request is never inspected
(`sendDeletionRequest` succeeds on every body). -/
theorem claim_C7_delete_transport_fatal :
    (∀ (env : ProvisionerEnv) (vcName clusterID : String) (e : GoError),
      (getAliyunAKPair env.podNs env.getSecret).err = none →
      (getASKConfigs env.podNs env.getConfigMap).err = none →
      env.newClient = none →
      getClusterIDByName env.listResp vcName = .ok clusterID →
      env.deleteResp = .error e →
      DeleteVirtualCluster env vcName =
        some ⟨.error e, [Effect.backendListClusters, Effect.backendDeleteCluster]⟩) ∧
    (∀ body : String, sendDeletionRequest (.ok body) = none) := by
  constructor
  · intro env vcName clusterID e h1 h2 h3 h4 h5
    unfold DeleteVirtualCluster
    rw [h1, h2, h3, h4, h5]
    rfl
  · intro body
    rfl

/-- The namespace component of a loaded access-key pair is the namespace
the `Get` targeted. -/
theorem getAliyunAKPairFrom_ns (ns : String)
    (getRes : Except GoError (List (String × String))) :
    (getAliyunAKPairFrom ns getRes).ns = ns := by
  unfold getAliyunAKPairFrom
  split <;> rfl

/-- The namespace component of a loaded ASK config is the namespace the
`Get` targeted. -/
theorem getASKConfigsFrom_ns (ns : String)
    (getRes : Except GoError (List (String × String))) :
    (getASKConfigsFrom ns getRes).ns = ns := by
  unfold getASKConfigsFrom
  split
  · rfl
  · split
    · rfl
    · split <;> rfl

/-- Witness for C7: a concrete run whose delete request fails at the
transport layer returns that error with no state poll in the trace. -/
theorem claim_C7_witness :
    DeleteVirtualCluster
        { happyEnv with deleteResp := .error (.transport "connection refused") } "tenant-a" =
      some ⟨.error (.transport "connection refused"),
        [Effect.backendListClusters, Effect.backendDeleteCluster]⟩ ∧
    sendDeletionRequest (.ok otherErrBody) = none :=
  ⟨claim_C7_delete_transport_fatal.1 _ "tenant-a" "cls-123" (.transport "connection refused")
      rfl rfl rfl rfl rfl,
    claim_C7_delete_transport_fatal.2 otherErrBody⟩

/-- C8: when the pod-namespace lookup fails, both loaders target the
fixed default namespace `"vc-manager"`: the namespace their `Get` uses is
`DefaultVcManagerNs`, and their result depends on the store only through
its value at that namespace (so no other namespace is read). -/
theorem claim_C8_default_ns_fallback :
    ∀ (e : GoError)
      (getSecret getConfigMap : String → String → Except GoError (List (String × String))),
      (getAliyunAKPair (.error e) getSecret).ns = "vc-manager" ∧
      (getASKConfigs (.error e) getConfigMap).ns = "vc-manager" ∧
      DefaultVcManagerNs = "vc-manager" ∧
      (∀ getSecret2,
        getSecret "vc-manager" AliyunAkSrt = getSecret2 "vc-manager" AliyunAkSrt →
        getAliyunAKPair (.error e) getSecret = getAliyunAKPair (.error e) getSecret2) ∧
      (∀ getConfigMap2,
        getConfigMap "vc-manager" AliyunASKConfigMap =
          getConfigMap2 "vc-manager" AliyunASKConfigMap →
        getASKConfigs (.error e) getConfigMap = getASKConfigs (.error e) getConfigMap2) := by
  intro e getSecret getConfigMap
  refine ⟨?_, ?_, rfl, ?_, ?_⟩
  · exact getAliyunAKPairFrom_ns _ _
  · exact getASKConfigsFrom_ns _ _
  · intro getSecret2 h
    unfold getAliyunAKPair
    rw [show resolveVcManagerNs (.error e) = "vc-manager" from rfl, h]
  · intro getConfigMap2 h
    unfold getASKConfigs
    rw [show resolveVcManagerNs (.error e) = "vc-manager" from rfl, h]

/-- Witness for C8: a concrete failed namespace lookup with two stores
that agree only on the `"vc-manager"` namespace. -/
theorem claim_C8_witness :
    (getAliyunAKPair (.error (.plain "not running in a pod"))
      (fun ns _ => if ns = "vc-manager" then .ok [(AliyunAKIDName, "ak-id")]
        else .error (.plain "wrong ns"))).ns = "vc-manager" ∧
    getAliyunAKPair (.error (.plain "not running in a pod"))
        (fun ns _ => if ns = "vc-manager" then .ok [(AliyunAKIDName, "ak-id")]
          else .error (.plain "wrong ns")) =
      getAliyunAKPair (.error (.plain "not running in a pod"))
        (fun ns _ => if ns = "vc-manager" then .ok [(AliyunAKIDName, "ak-id")]
          else .ok [(AliyunAKIDName, "other")]) := by
  have h := claim_C8_default_ns_fallback (.plain "not running in a pod")
    (fun ns _ => if ns = "vc-manager" then .ok [(AliyunAKIDName, "ak-id")]
      else .error (.plain "wrong ns"))
    (fun _ _ => .ok [])
  exact ⟨h.1, h.2.2.2.1 _ rfl⟩

/-- C3: the branch structure of `sendCreationRequest`.  When the POST
response classifies to code `ClusterNameAlreadyExist`, the result is
exactly `getClusterIDByName`'s resolution of the name (the existing
cluster's id, with no error, when the lookup succeeds) and a listing
request is issued; any other classified code is returned as the
`*AliyunSDKErr` itself, and a transport error is returned verbatim, both
immediately after the POST. -/
theorem claim_C3_conflict_reuse :
    (∀ (postBody : String) (listResp : Except GoError String)
      (clusterName : String) (askCfg : ASKConfig) (sdkErr : AliyunSDKErr),
      isErrResponse postBody = some (some sdkErr) →
      ((sdkErr.errorCode = ClusterNameAlreadyExist →
        sendCreationRequest (.ok postBody) listResp clusterName askCfg =
          some (getClusterIDByName listResp clusterName,
            [Effect.backendCreateCluster, Effect.backendListClusters])) ∧
       (sdkErr.errorCode ≠ ClusterNameAlreadyExist →
        sendCreationRequest (.ok postBody) listResp clusterName askCfg =
          some (.error (.sdk sdkErr), [Effect.backendCreateCluster])))) ∧
    (∀ (e : GoError) (listResp : Except GoError String)
      (clusterName : String) (askCfg : ASKConfig),
      sendCreationRequest (.error e) listResp clusterName askCfg =
        some (.error e, [Effect.backendCreateCluster])) := by
  constructor
  · intro postBody listResp clusterName askCfg sdkErr hresp
    constructor
    · intro hcode
      unfold sendCreationRequest
      dsimp only
      rw [hresp]
      dsimp only
      rw [if_pos hcode]
    · intro hcode
      unfold sendCreationRequest
      dsimp only
      rw [hresp]
      dsimp only
      rw [if_neg hcode]
  · intro e listResp clusterName askCfg
    rfl

/-- Witness for C3: a conflict-classified POST body resolves `"tenant-a"`
through the listing to `"cls-123"` with no error; an other-classified
body returns the classified error; a transport error is returned
verbatim. -/
theorem claim_C3_witness :
    sendCreationRequest (.ok conflictBody) (.ok listBody) "tenant-a"
        ⟨"", "cn-hangzhou", "zone-a"⟩ =
      some (.ok "cls-123", [Effect.backendCreateCluster, Effect.backendListClusters]) ∧
    sendCreationRequest (.ok otherErrBody) (.ok listBody) "tenant-a"
        ⟨"", "cn-hangzhou", "zone-a"⟩ =
      some (.error (.sdk ⟨"B", "SomeWeirdError", "mm"⟩), [Effect.backendCreateCluster]) ∧
    sendCreationRequest (.error (.transport "connection refused")) (.ok listBody) "tenant-a"
        ⟨"", "cn-hangzhou", "zone-a"⟩ =
      some (.error (.transport "connection refused"), [Effect.backendCreateCluster]) := by
  refine ⟨?_, ?_, ?_⟩
  · have h := (claim_C3_conflict_reuse.1 conflictBody (.ok listBody) "tenant-a"
      ⟨"", "cn-hangzhou", "zone-a"⟩ ⟨"B", ClusterNameAlreadyExist, "mm"⟩ rfl).1 rfl
    exact h.trans (by rfl)
  · exact (claim_C3_conflict_reuse.1 otherErrBody (.ok listBody) "tenant-a"
      ⟨"", "cn-hangzhou", "zone-a"⟩ ⟨"B", "SomeWeirdError", "mm"⟩ rfl).2 (by decide)
  · exact claim_C3_conflict_reuse.2 (.transport "connection refused") (.ok listBody)
      "tenant-a" ⟨"", "cn-hangzhou", "zone-a"⟩

/-- C5: the creation poll loop runs its 10-second interval against the
one-shot 120-second deadline armed before the loop, so a timeout outcome
only ever occurs after twelve 10-second waits — at second 120 exactly,
never earlier.  When every in-window poll answers a non-`"running"`
state, `CreateVirtualCluster` returns the `creating cluster(...) timeout`
error, and its trace contains no `backendDeleteCluster` (and no
`kubeCreateSecret`): the remote cluster is not rolled back on timeout. -/
theorem claim_C5_timeout_only_at_deadline :
    (∀ (probe : Nat → Option (Except GoError String)) (polls t : Nat),
      createPolling probe = some (.timedOut polls t) → polls = 12 ∧ t = 120) ∧
    (∀ (env : ProvisionerEnv) (vcName clusterKey clsID : String) (tr : List Effect),
      (getAliyunAKPair env.podNs env.getSecret).err = none →
      (getASKConfigs env.podNs env.getConfigMap).err = none →
      env.newClient = none →
      sendCreationRequest env.createResp env.listResp vcName
        (getASKConfigs env.podNs env.getConfigMap).cfg = some (.ok clsID, tr) →
      (∀ k, k < 12 → ∃ s, getASKState (env.stateResp k) clsID = some (.ok s) ∧
        s ≠ "running") →
      CreateVirtualCluster env vcName clusterKey =
        some ⟨.error (.plain ("creating cluster(" ++ clsID ++ ") timeout")),
          tr ++ List.replicate 12 Effect.backendGetState⟩ ∧
      Effect.backendDeleteCluster ∉ tr ++ List.replicate 12 Effect.backendGetState ∧
      (∀ ns, Effect.kubeCreateSecret ns ∉ tr ++ List.replicate 12 Effect.backendGetState)) := by
  constructor
  · intro probe polls t h
    have := createPollLoop_timedOut_eq probe 12 0 0 polls t h
    omega
  · intro env vcName clusterKey clsID tr h1 h2 h3 h4 h5
    have hloop : createPolling (fun k => getASKState (env.stateResp k) clsID) =
        some (.timedOut 12 120) := by
      have := createPollLoop_nonrunning (fun k => getASKState (env.stateResp k) clsID)
        12 0 0 (fun j _ hj => h5 j (by omega))
      simpa using this
    refine ⟨?_, ?_, ?_⟩
    · unfold CreateVirtualCluster
      rw [h1, h2, h3, h4]
      dsimp only
      rw [hloop]
    · have := (sendCreationRequest_trace_no_secret env.createResp env.listResp vcName
        (getASKConfigs env.podNs env.getConfigMap).cfg (.ok clsID) tr "" h4).2
      simp only [List.mem_append, List.mem_replicate]
      rintro (hc | ⟨-, hc⟩)
      · exact this hc
      · cases hc
    · intro ns
      have := (sendCreationRequest_trace_no_secret env.createResp env.listResp vcName
        (getASKConfigs env.podNs env.getConfigMap).cfg (.ok clsID) tr ns h4).1
      simp only [List.mem_append, List.mem_replicate]
      rintro (hc | ⟨-, hc⟩)
      · exact this hc
      · cases hc

/-- Witness for C5: with every poll reading `"creating"`, the timeout
outcome is `(12 polls, 120 s)` and the full call returns the timeout
error with no delete and no secret in its trace. -/
theorem claim_C5_witness :
    (12 = 12 ∧ 120 = 120) ∧
    (CreateVirtualCluster { happyEnv with stateResp := fun _ => .ok creatingBody }
        "tenant-a" "vc-tenant-a" =
      some ⟨.error (.plain "creating cluster(cls-123) timeout"),
        [Effect.backendCreateCluster] ++ List.replicate 12 Effect.backendGetState⟩ ∧
      Effect.backendDeleteCluster ∉
        [Effect.backendCreateCluster] ++ List.replicate 12 Effect.backendGetState ∧
      (∀ ns, Effect.kubeCreateSecret ns ∉
        [Effect.backendCreateCluster] ++ List.replicate 12 Effect.backendGetState)) :=
  ⟨claim_C5_timeout_only_at_deadline.1 (fun _ => some (.ok "creating")) 12 120 rfl,
    claim_C5_timeout_only_at_deadline.2
      { happyEnv with stateResp := fun _ => .ok creatingBody }
      "tenant-a" "vc-tenant-a" "cls-123" [Effect.backendCreateCluster]
      rfl rfl rfl rfl (fun k _ => ⟨"creating", rfl, by decide⟩)⟩

/-- An `askStateFromInfo` success pins down both fields: the object's
`cluster_id` is the requested one and its `state` is the returned state. -/
theorem askStateFromInfo_ok (fields : List (String × JValue)) (clusterID s : String) :
    askStateFromInfo fields clusterID = .ok s →
    jlookup fields "cluster_id" = some (.str clusterID) ∧
    jlookup fields "state" = some (.str s) := by
  intro h
  unfold askStateFromInfo at h
  split at h
  · cases h
  · rename_i clsIDInf heq
    split at h
    · rename_i clsID
      split at h
      · cases h
      · rename_i hne
        split at h
        · cases h
        · rename_i clsStateInf heq2
          split at h
          · rename_i clsState
            cases h
            have hid : clsID = clusterID := by
              by_contra hc
              exact hne hc
            subst hid
            exact ⟨heq, heq2⟩
          · cases h
    · cases h

/-- When no string `cluster_id` member equals the requested id,
`askStateFromInfo` produces an error. -/
theorem askStateFromInfo_mismatch (fields : List (String × JValue)) (clusterID : String) :
    (∀ cid, jlookup fields "cluster_id" = some (.str cid) → cid ≠ clusterID) →
    ∃ e, askStateFromInfo fields clusterID = .error e := by
  intro hne
  unfold askStateFromInfo
  split
  · exact ⟨_, rfl⟩
  · rename_i clsIDInf heq
    split
    · rename_i clsID
      rw [if_pos (hne clsID heq)]
      exact ⟨_, rfl⟩
    · exact ⟨_, rfl⟩

/-- `getASKState` on a JSON body that does not unmarshal to an object
returns the unmarshal error. -/
theorem getASKState_jsonerr (body clusterID : String) (e0 : GoError)
    (hresp : isErrResponse body = some none)
    (hun : unmarshalObj body = .error e0) :
    getASKState (.ok body) clusterID = some (.error e0) := by
  unfold getASKState
  dsimp only
  rw [hresp]
  dsimp only
  rw [hun]

/-- `getASKState` on a JSON object body is `askStateFromInfo` on its
fields. -/
theorem getASKState_jsonok (body clusterID : String) (fields : List (String × JValue))
    (hresp : isErrResponse body = some none)
    (hun : unmarshalObj body = .ok fields) :
    getASKState (.ok body) clusterID = some (askStateFromInfo fields clusterID) := by
  unfold getASKState
  dsimp only
  rw [hresp]
  dsimp only
  rw [hun]

/-- C10: for a successful well-formed response (the body parses as JSON,
so the classifier reports success), `getASKState` returns a state only
when the response object's `cluster_id` member is exactly the requested
`clusterID` and its `state` member is that state; and whenever every
string `cluster_id` member differs from the requested id (in particular
when it is absent or not a string), it returns an error — a caller can
never observe the state of a different cluster. -/
theorem claim_C10_state_identity :
    ∀ (body clusterID : String) (v : JValue),
      parseJSON body = some v →
      ((∀ s, getASKState (.ok body) clusterID = some (.ok s) →
        ∃ fields, v = JValue.obj fields ∧
          jlookup fields "cluster_id" = some (.str clusterID) ∧
          jlookup fields "state" = some (.str s)) ∧
       (∀ fields, v = JValue.obj fields →
        (∀ cid, jlookup fields "cluster_id" = some (.str cid) → cid ≠ clusterID) →
        ∃ e, getASKState (.ok body) clusterID = some (.error e))) := by
  intro body clusterID v hparse
  have hresp : isErrResponse body = some none := by
    unfold isErrResponse IsJSON
    rw [hparse]
    rfl
  constructor
  · intro s hs
    cases hun : unmarshalObj body with
    | error e0 =>
      rw [getASKState_jsonerr body clusterID e0 hresp hun] at hs
      cases Option.some.inj hs
    | ok fields =>
      rw [getASKState_jsonok body clusterID fields hresp hun] at hs
      obtain ⟨hcl, hst⟩ := askStateFromInfo_ok fields clusterID s (Option.some.inj hs)
      have hv : v = JValue.obj fields := by
        unfold unmarshalObj at hun
        rw [hparse] at hun
        split at hun
        · rename_i fields2 heq
          cases hun
          exact Option.some.inj heq
        · -- the JSON null no-op case: the empty map has no cluster_id member
          cases hun
          cases hcl
        · cases hun
        · cases hun
      exact ⟨fields, hv, hcl, hst⟩
  · intro fields hf hne
    subst hf
    have hun : unmarshalObj body = .ok fields := by
      unfold unmarshalObj
      rw [hparse]
    obtain ⟨e, he⟩ := askStateFromInfo_mismatch fields clusterID hne
    refine ⟨e, ?_⟩
    rw [getASKState_jsonok body clusterID fields hresp hun, he]

/-- Witness for C10: the matching success body yields state `"running"`
for `cls-123`; a body whose `cluster_id` is `other` makes the probe for
`cls-123` error. -/
theorem claim_C10_witness :
    (∃ fields, JValue.obj [("cluster_id", JValue.str "cls-123"), ("state", JValue.str "running")] =
        JValue.obj fields ∧
      jlookup fields "cluster_id" = some (.str "cls-123") ∧
      jlookup fields "state" = some (.str "running")) ∧
    (∃ e, getASKState (.ok "\x7b\"cluster_id\":\"other\",\"state\":\"running\"\x7d") "cls-123" =
      some (.error e)) :=
  ⟨(claim_C10_state_identity runningBody "cls-123"
      (JValue.obj [("cluster_id", JValue.str "cls-123"), ("state", JValue.str "running")])
      rfl).1 "running" rfl,
    (claim_C10_state_identity "\x7b\"cluster_id\":\"other\",\"state\":\"running\"\x7d" "cls-123"
      (JValue.obj [("cluster_id", JValue.str "other"), ("state", JValue.str "running")])
      rfl).2 [("cluster_id", JValue.str "other"), ("state", JValue.str "running")] rfl
      (fun cid hc => by
        rw [show jlookup [("cluster_id", JValue.str "other"), ("state", JValue.str "running")]
          "cluster_id" = some (JValue.str "other") from rfl] at hc
        have h := Option.some.inj hc
        injection h with h
        subst h
        decide)⟩

/-- C4: whenever a run of `CreateVirtualCluster` records the admin
kubeconfig secret creation, some in-window state poll (one of the at most
twelve) returned exactly `"running"` for the created cluster; and when the
poll loop never breaks with `observed` (it times out or aborts, or an
earlier step fails), the secret creation never appears in the trace. -/
theorem claim_C4_secret_only_after_running :
    ∀ (env : ProvisionerEnv) (vcName clusterKey : String) (out : RunResult),
      CreateVirtualCluster env vcName clusterKey = some out →
      ((Effect.kubeCreateSecret clusterKey ∈ out.trace →
        ∃ clsID tr j, sendCreationRequest env.createResp env.listResp vcName
            (getASKConfigs env.podNs env.getConfigMap).cfg = some (.ok clsID, tr) ∧
          j < 12 ∧ getASKState (env.stateResp j) clsID = some (.ok "running")) ∧
       (∀ clsID tr, sendCreationRequest env.createResp env.listResp vcName
            (getASKConfigs env.podNs env.getConfigMap).cfg = some (.ok clsID, tr) →
        (∀ polls t, createPolling (fun k => getASKState (env.stateResp k) clsID) ≠
          some (.observed polls t)) →
        Effect.kubeCreateSecret clusterKey ∉ out.trace)) := by
  intro env vcName clusterKey out h
  unfold CreateVirtualCluster at h
  cases hak : (getAliyunAKPair env.podNs env.getSecret).err with
  | some e =>
    rw [hak] at h
    cases h
    exact ⟨fun hmem => absurd hmem (by simp), fun _ _ _ _ hmem => absurd hmem (by simp)⟩
  | none =>
    rw [hak] at h
    dsimp only at h
    cases hcfg : (getASKConfigs env.podNs env.getConfigMap).err with
    | some e =>
      rw [hcfg] at h
      cases h
      exact ⟨fun hmem => absurd hmem (by simp), fun _ _ _ _ hmem => absurd hmem (by simp)⟩
    | none =>
      rw [hcfg] at h
      dsimp only at h
      cases hcli : env.newClient with
      | some e =>
        rw [hcli] at h
        cases h
        exact ⟨fun hmem => absurd hmem (by simp), fun _ _ _ _ hmem => absurd hmem (by simp)⟩
      | none =>
        rw [hcli] at h
        dsimp only at h
        cases hsend : sendCreationRequest env.createResp env.listResp vcName
            (getASKConfigs env.podNs env.getConfigMap).cfg with
        | none => rw [hsend] at h; cases h
        | some pr =>
          rw [hsend] at h
          obtain ⟨res, tr⟩ := pr
          cases res with
          | error e =>
            dsimp only at h
            cases h
            have htr := (sendCreationRequest_trace_no_secret _ _ _ _ _ _ clusterKey hsend).1
            exact ⟨fun hmem => absurd hmem htr, fun _ _ _ _ hmem => absurd hmem htr⟩
          | ok clsID =>
            dsimp only at h
            have htr := (sendCreationRequest_trace_no_secret _ _ _ _ _ _ clusterKey hsend).1
            cases hpoll : createPolling (fun k => getASKState (env.stateResp k) clsID) with
            | none => rw [hpoll] at h; cases h
            | some po =>
              rw [hpoll] at h
              cases po with
              | aborted polls t e =>
                dsimp only at h
                cases h
                have hnomem : Effect.kubeCreateSecret clusterKey ∉
                    tr ++ List.replicate polls Effect.backendGetState := by
                  simp only [List.mem_append, List.mem_replicate]
                  rintro (hc | ⟨-, hc⟩)
                  · exact htr hc
                  · cases hc
                exact ⟨fun hmem => absurd hmem hnomem, fun _ _ _ _ hmem => absurd hmem hnomem⟩
              | timedOut polls t =>
                dsimp only at h
                cases h
                have hnomem : Effect.kubeCreateSecret clusterKey ∉
                    tr ++ List.replicate polls Effect.backendGetState := by
                  simp only [List.mem_append, List.mem_replicate]
                  rintro (hc | ⟨-, hc⟩)
                  · exact htr hc
                  · cases hc
                exact ⟨fun hmem => absurd hmem hnomem, fun _ _ _ _ hmem => absurd hmem hnomem⟩
              | observed polls t =>
                have hrun : ∃ j, j < 12 ∧
                    getASKState (env.stateResp j) clsID = some (.ok "running") := by
                  obtain ⟨j, -, hj12, hj⟩ :=
                    createPollLoop_observed_running
                      (fun k => getASKState (env.stateResp k) clsID) 12 0 0 polls t hpoll
                  exact ⟨j, by omega, hj⟩
                obtain ⟨j, hj12, hj⟩ := hrun
                refine ⟨fun _ => ⟨clsID, tr, j, rfl, hj12, hj⟩, ?_⟩
                intro clsID2 tr2 hsend2 hne
                have h1 := Option.some.inj hsend2
                have h2 : (Except.ok clsID : Except GoError String) = .ok clsID2 :=
                  congrArg Prod.fst h1
                have h3 : clsID = clsID2 := by injection h2
                subst h3
                exact absurd hpoll (hne polls t)

/-- Witness for C4: the all-success run records the secret creation, and
applying the theorem to it exhibits the `"running"` poll (the second
poll, `j = 1`); the all-`"creating"` run never observes `running` and its
trace indeed carries no secret creation. -/
theorem claim_C4_witness :
    (∃ clsID tr j, sendCreationRequest happyEnv.createResp happyEnv.listResp "tenant-a"
        (getASKConfigs happyEnv.podNs happyEnv.getConfigMap).cfg = some (.ok clsID, tr) ∧
      j < 12 ∧ getASKState (happyEnv.stateResp j) clsID = some (.ok "running")) ∧
    Effect.kubeCreateSecret "vc-tenant-a" ∉
      [Effect.backendCreateCluster] ++ List.replicate 12 Effect.backendGetState :=
  ⟨(claim_C4_secret_only_after_running happyEnv "tenant-a" "vc-tenant-a"
      ⟨.ok (), [Effect.backendCreateCluster, Effect.backendGetState, Effect.backendGetState,
        Effect.kubeCreateNamespace "vc-tenant-a", Effect.backendGetKubeConfig,
        Effect.kubeCreateSecret "vc-tenant-a"]⟩ rfl).1 (by decide),
    (claim_C4_secret_only_after_running
      { happyEnv with stateResp := fun _ => .ok creatingBody } "tenant-a" "vc-tenant-a"
      ⟨.error (.plain "creating cluster(cls-123) timeout"),
        [Effect.backendCreateCluster] ++ List.replicate 12 Effect.backendGetState⟩ rfl).2
      "cls-123" [Effect.backendCreateCluster] rfl
      (fun polls t hc => by
        rw [show createPolling (fun k => getASKState
          (({ happyEnv with stateResp := fun _ => .ok creatingBody } :
            ProvisionerEnv).stateResp k) "cls-123") = some (.timedOut 12 120) from rfl] at hc
        cases Option.some.inj hc)⟩

end AliyunMP
